import Mathlib

/-!
Verification of the two scripts in the CodeAgent test workspace:
`calculator.py` (a stateless `Calculator` class with six arithmetic
methods) and `hello.py` (a greeter with a clock and a `main` entry
point).

The embedding idealises Python numbers exactly: `int` is `ℤ` and a
`float` value is a real number, so floating-point rounding and overflow
are outside the model; domain errors (`ZeroDivisionError`, `ValueError`
from `math.pow` and `math.sqrt`) and dynamic attribute errors are
modelled faithfully.  Standard-library behaviour that the scripts lean
on (`math.pow` and `math.sqrt` domain checks, the attribute set of the
`datetime` module) is taken from the documented CPython semantics.
-/

namespace CodeAgent

/-- The Python exception kinds the two scripts can raise. -/
inductive PyErr where
  | zeroDivisionError : PyErr
  | valueError : PyErr
  | attributeError : PyErr
deriving DecidableEq, Repr

/-- A Python numeric value: an `int` (arbitrary precision) or a `float`
(idealised as an exact real number). -/
inductive PyVal where
  | int : ℤ → PyVal
  | float : ℝ → PyVal

/-- The numeric value a `PyVal` denotes; Python `==` on numbers compares
these denotations across `int` and `float`. -/
noncomputable def PyVal.toReal : PyVal → ℝ
  | .int n => (n : ℝ)
  | .float x => x

/-- Python `num1 + num2`: `int + int` stays an `int`; if either operand
is a `float` the result is a `float`. -/
noncomputable def pyAdd : PyVal → PyVal → PyVal
  | .int a, .int b => .int (a + b)
  | a, b => .float (a.toReal + b.toReal)

/-- Python `num1 - num2`, with the same `int`/`float` coercion as `+`. -/
noncomputable def pySub : PyVal → PyVal → PyVal
  | .int a, .int b => .int (a - b)
  | a, b => .float (a.toReal - b.toReal)

/-- Python `num1 * num2`, with the same `int`/`float` coercion as `+`. -/
noncomputable def pyMul : PyVal → PyVal → PyVal
  | .int a, .int b => .int (a * b)
  | a, b => .float (a.toReal * b.toReal)

/-- A real value is integral when it is the cast of an integer; per the
CPython documentation, `math.pow` raises `ValueError` for a negative
base and a non-integral exponent. -/
def isIntegral (y : ℝ) : Prop := ∃ n : ℤ, y = (n : ℝ)

open Classical in
/-- CPython `math.pow(x, y)` on exact values: it raises `ValueError`
(math domain error) when the base is `0` with a negative exponent, or
when the base is negative with a non-integral exponent; otherwise it
returns the real power `x ^ y` (`Real.rpow`, which agrees with the
signed integer power for a negative base and an integer exponent).
Float overflow is outside this exact model. -/
noncomputable def mathPow (x y : ℝ) : Except PyErr ℝ :=
  if x = 0 ∧ y < 0 then .error .valueError
  else if x < 0 ∧ ¬ isIntegral y then .error .valueError
  else .ok (x ^ y)

open Classical in
/-- CPython `math.sqrt(x)`: raises `ValueError` for a negative argument,
otherwise returns the non-negative square root. -/
noncomputable def mathSqrt (x : ℝ) : Except PyErr ℝ :=
  if x < 0 then .error .valueError else .ok (Real.sqrt x)

/-- A Python object's attribute dictionary.  The `Calculator` class has
no `__init__` and its methods never assign to `self` or to any module
global, so this dictionary is the whole mutable state a method could
touch. -/
def Attrs := List (String × PyVal)

namespace Calculator

/-- `def add(self, num1, num2): return num1 + num2` — each method is
embedded as state passing on the attribute dictionary together with the
returned value or raised exception. -/
noncomputable def add (self : Attrs) (num1 num2 : PyVal) :
    Attrs × Except PyErr PyVal :=
  (self, .ok (pyAdd num1 num2))

/-- `def subtract(self, num1, num2): return num1 - num2` -/
noncomputable def subtract (self : Attrs) (num1 num2 : PyVal) :
    Attrs × Except PyErr PyVal :=
  (self, .ok (pySub num1 num2))

/-- `def multiply(self, num1, num2): return num1 * num2` -/
noncomputable def multiply (self : Attrs) (num1 num2 : PyVal) :
    Attrs × Except PyErr PyVal :=
  (self, .ok (pyMul num1 num2))

open Classical in
/-- `def divide(self, num1, num2)`: raises `ZeroDivisionError` when
`num2 == 0` (numeric comparison across `int` and `float`), otherwise
returns the true division `num1 / num2`, which in Python is always a
`float`. -/
noncomputable def divide (self : Attrs) (num1 num2 : PyVal) :
    Attrs × Except PyErr PyVal :=
  (self,
    if num2.toReal = 0 then .error .zeroDivisionError
    else .ok (.float (num1.toReal / num2.toReal)))

/-- `def power(self, base, exponent): return math.pow(base, exponent)`:
`math.pow` converts both arguments to `float` and returns a `float`. -/
noncomputable def power (self : Attrs) (base exponent : PyVal) :
    Attrs × Except PyErr PyVal :=
  (self, (mathPow base.toReal exponent.toReal).map PyVal.float)

/-- `def square_root(self, num)`: raises `ValueError` when `num < 0`,
otherwise returns `math.sqrt(num)`, a `float`. -/
noncomputable def square_root (self : Attrs) (num : PyVal) :
    Attrs × Except PyErr PyVal :=
  (self, (mathSqrt num.toReal).map PyVal.float)

end Calculator

/-- `def greet(name): print(f"Hello, {name}!")` — standard output is
modelled as the list of printed lines. -/
def greet (name : String) : List String := ["Hello, " ++ name ++ "!"]

/-- `def farewell(name): print(f"Goodbye, {name}!")` -/
def farewell (name : String) : List String := ["Goodbye, " ++ name ++ "!"]

/-- The wall-clock local time the system hands to the program. -/
structure Time where
  hour : Nat
  minute : Nat
  second : Nat

/-- Zero padding to two digits, as strftime `%H`, `%M` and `%S` do. -/
def pad2 (n : Nat) : String :=
  if n < 10 then "0" ++ toString n else toString n

/-- `strftime("%H:%M:%S")` applied to a wall-clock time. -/
def strftimeHMS (t : Time) : String :=
  pad2 t.hour ++ ":" ++ pad2 t.minute ++ ":" ++ pad2 t.second

/-- The attributes of the standard-library `datetime` MODULE: the
classes `date`, `time`, `datetime`, `timedelta`, `tzinfo`, `timezone`,
the `UTC` alias and the `MINYEAR`/`MAXYEAR` constants.  `now` is a
method of the `datetime.datetime` class, not an attribute of the
module. -/
def datetimeModuleAttrs : List String :=
  ["MINYEAR", "MAXYEAR", "UTC", "date", "time", "datetime",
   "timedelta", "timezone", "tzinfo"]

/-- `def get_current_time(): return datetime.now().strftime("%H:%M:%S")`.
`hello.py` does `import datetime`, so the name `datetime` is bound to
the module, and the call first looks up the attribute `now` on that
module: the lookup raises `AttributeError` when the module has no such
attribute, and only on success would the current time be formatted. -/
def get_current_time (t : Time) : Except PyErr String :=
  if "now" ∈ datetimeModuleAttrs then .ok (strftimeHMS t)
  else .error .attributeError

/-- `def main(): greet("World"); print(get_current_time()); farewell("Alice")`.
The result is the stdout lines produced together with normal completion
or the uncaught exception; `greet` runs before `get_current_time` is
evaluated, so its line is printed even when the latter raises. -/
def main (t : Time) : List String × Except PyErr Unit :=
  match get_current_time t with
  | .error e => (greet "World", .error e)
  | .ok s => (greet "World" ++ [s] ++ farewell "Alice", .ok ())

/-- The process exit status: `0` on normal completion, `1` when an
uncaught exception propagates out of `main`. -/
def exitCode (r : Except PyErr Unit) : Nat :=
  match r with
  | .ok _ => 0
  | .error _ => 1

section Helpers

/-- The value of a Python addition is the sum of the values. -/
theorem toReal_pyAdd (a b : PyVal) :
    (pyAdd a b).toReal = a.toReal + b.toReal := by
  cases a <;> cases b <;> simp [pyAdd, PyVal.toReal]

/-- The value of a Python subtraction is the difference of the values. -/
theorem toReal_pySub (a b : PyVal) :
    (pySub a b).toReal = a.toReal - b.toReal := by
  cases a <;> cases b <;> simp [pySub, PyVal.toReal]

/-- The value of a Python multiplication is the product of the values. -/
theorem toReal_pyMul (a b : PyVal) :
    (pyMul a b).toReal = a.toReal * b.toReal := by
  cases a <;> cases b <;> simp [pyMul, PyVal.toReal]

/-- The real power at the natural exponent 10 of base 2. -/
theorem two_rpow_ten : (2 : ℝ) ^ (10 : ℝ) = 1024 := by
  rw [show (10 : ℝ) = ((10 : ℕ) : ℝ) by norm_num, Real.rpow_natCast]
  norm_num

/-- One half is not the cast of any integer. -/
theorem not_isIntegral_half : ¬ isIntegral ((1 : ℝ) / 2) := by
  rintro ⟨n, hn⟩
  have h0 : (0 : ℝ) < (n : ℝ) := by rw [← hn]; norm_num
  have h1 : ((n : ℝ)) < 1 := by rw [← hn]; norm_num
  have h0i : (0 : ℤ) < n := by exact_mod_cast h0
  have h1i : n < (1 : ℤ) := by exact_mod_cast h1
  omega

end Helpers

/-- C3: `divide(a, b)` returns exactly the quotient `a / b` (a float)
whenever the value of `b` is non-zero, and raises `ZeroDivisionError`
exactly when the value of `b` is zero; no other error is possible. -/
theorem divide_spec (self : Attrs) (a b : PyVal) :
    (b.toReal ≠ 0 →
      (Calculator.divide self a b).2 = .ok (.float (a.toReal / b.toReal))) ∧
    (b.toReal = 0 →
      (Calculator.divide self a b).2 = .error .zeroDivisionError) := by
  constructor
  · intro h
    simp only [Calculator.divide]
    rw [if_neg h]
  · intro h
    simp only [Calculator.divide]
    rw [if_pos h]

/-- Concrete run of C3: `divide(6, 3)` returns the float `2.0` and
`divide(1, 0)` raises `ZeroDivisionError`. -/
theorem divide_spec_witness :
    (Calculator.divide [] (.int 6) (.int 3)).2 = .ok (.float 2) ∧
    (Calculator.divide [] (.int 1) (.int 0)).2 = .error .zeroDivisionError := by
  constructor
  · have h := (divide_spec [] (.int 6) (.int 3)).1
      (by norm_num [PyVal.toReal])
    rw [h]
    norm_num [PyVal.toReal]
  · exact (divide_spec [] (.int 1) (.int 0)).2 (by norm_num [PyVal.toReal])

/-- C4: for a non-negative argument `square_root(n)` returns the
non-negative square root of `n` (a float `r` with `0 ≤ r` and
`r ^ 2 = n`), and for a negative argument it raises `ValueError`; no
other error is possible. -/
theorem square_root_spec (self : Attrs) (n : PyVal) :
    (0 ≤ n.toReal →
      ∃ r : ℝ, (Calculator.square_root self n).2 = .ok (.float r) ∧
        0 ≤ r ∧ r ^ 2 = n.toReal) ∧
    (n.toReal < 0 →
      (Calculator.square_root self n).2 = .error .valueError) := by
  constructor
  · intro h
    refine ⟨Real.sqrt n.toReal, ?_, Real.sqrt_nonneg _, Real.sq_sqrt h⟩
    simp only [Calculator.square_root, mathSqrt]
    rw [if_neg (not_lt.2 h)]
    rfl
  · intro h
    simp only [Calculator.square_root, mathSqrt]
    rw [if_pos h]
    rfl

/-- Concrete run of C4: `square_root(9)` returns the float `3.0` and
`square_root(-1)` raises `ValueError`. -/
theorem square_root_spec_witness :
    (Calculator.square_root [] (.int 9)).2 = .ok (.float 3) ∧
    (Calculator.square_root [] (.int (-1))).2 = .error .valueError := by
  constructor
  · obtain ⟨r, hok, hr0, hr2⟩ := (square_root_spec [] (.int 9)).1
      (by norm_num [PyVal.toReal])
    have h9 : r ^ 2 = 9 := by
      rw [hr2]; norm_num [PyVal.toReal]
    have hr3 : r = 3 := by nlinarith
    rw [hok, hr3]
  · exact (square_root_spec [] (.int (-1))).2 (by norm_num [PyVal.toReal])

/-- C6: `add`, `subtract` and `multiply` always succeed, and the value
returned is exactly the sum, difference and product of the values of
the operands. -/
theorem add_subtract_multiply_exact (self : Attrs) (a b : PyVal) :
    ((Calculator.add self a b).2 = .ok (pyAdd a b) ∧
      (pyAdd a b).toReal = a.toReal + b.toReal) ∧
    ((Calculator.subtract self a b).2 = .ok (pySub a b) ∧
      (pySub a b).toReal = a.toReal - b.toReal) ∧
    ((Calculator.multiply self a b).2 = .ok (pyMul a b) ∧
      (pyMul a b).toReal = a.toReal * b.toReal) :=
  ⟨⟨rfl, toReal_pyAdd a b⟩, ⟨rfl, toReal_pySub a b⟩, ⟨rfl, toReal_pyMul a b⟩⟩

/-- C5 counterexample: the claim that `power` raises no error is false.
`math.pow` raises `ValueError` for a negative base with a fractional
exponent: `power(-2.0, 0.5)` raises instead of returning a value (under
IEEE 754 conventions it would have been NaN, not an error). -/
theorem power_raises_counterexample :
    (Calculator.power [] (.float (-2)) (.float (1 / 2))).2 =
      .error .valueError := by
  have h1 : ¬ (((-2 : ℝ)) = 0 ∧ ((1 : ℝ) / 2) < 0) := by norm_num
  have h2 : ((-2 : ℝ)) < 0 ∧ ¬ isIntegral ((1 : ℝ) / 2) :=
    ⟨by norm_num, not_isIntegral_half⟩
  simp only [Calculator.power, PyVal.toReal, mathPow]
  rw [if_neg h1, if_pos h2]
  rfl

/-- C5 amended: `power(base, exponent)` mutates nothing and returns the
exact real power of the values whenever `math.pow` is defined there,
and raises `ValueError` exactly when the base value is `0` with a
negative exponent value or negative with a non-integral exponent
value. -/
theorem power_spec (self : Attrs) (base expo : PyVal) :
    (¬ (base.toReal = 0 ∧ expo.toReal < 0) →
      ¬ (base.toReal < 0 ∧ ¬ isIntegral expo.toReal) →
      (Calculator.power self base expo).2 =
        .ok (.float (base.toReal ^ expo.toReal))) ∧
    ((base.toReal = 0 ∧ expo.toReal < 0) ∨
        (base.toReal < 0 ∧ ¬ isIntegral expo.toReal) →
      (Calculator.power self base expo).2 = .error .valueError) := by
  constructor
  · intro h1 h2
    simp only [Calculator.power, mathPow]
    rw [if_neg h1, if_neg h2]
    rfl
  · rintro (h | h)
    · simp only [Calculator.power, mathPow]
      rw [if_pos h]
      rfl
    · by_cases h1 : base.toReal = 0 ∧ expo.toReal < 0
      · simp only [Calculator.power, mathPow]
        rw [if_pos h1]
        rfl
      · simp only [Calculator.power, mathPow]
        rw [if_neg h1, if_pos h]
        rfl

/-- Concrete run of the amended C5: `power(2, 10)` returns the float
`1024.0`. -/
theorem power_spec_witness :
    (Calculator.power [] (.int 2) (.int 10)).2 = .ok (.float 1024) := by
  have h := (power_spec [] (.int 2) (.int 10)).1
    (by norm_num [PyVal.toReal]) (by norm_num [PyVal.toReal])
  rw [h]
  have hv : ((PyVal.int 2).toReal) ^ ((PyVal.int 10).toReal) = 1024 := by
    have hb : (PyVal.int 2).toReal = (2 : ℝ) := by norm_num [PyVal.toReal]
    have he : (PyVal.int 10).toReal = (10 : ℝ) := by norm_num [PyVal.toReal]
    rw [hb, he, two_rpow_ten]
  rw [hv]

/-- C8: every `Calculator` method is stateless and atomic.  No call, on
any argument and whether it returns or raises, changes the attribute
dictionary of the object, and the outcome of a call does not depend on
that dictionary. -/
theorem calculator_stateless (self other : Attrs) (a b : PyVal) :
    ((Calculator.add self a b).1 = self ∧
      (Calculator.subtract self a b).1 = self ∧
      (Calculator.multiply self a b).1 = self ∧
      (Calculator.divide self a b).1 = self ∧
      (Calculator.power self a b).1 = self ∧
      (Calculator.square_root self a).1 = self) ∧
    ((Calculator.add self a b).2 = (Calculator.add other a b).2 ∧
      (Calculator.subtract self a b).2 = (Calculator.subtract other a b).2 ∧
      (Calculator.multiply self a b).2 = (Calculator.multiply other a b).2 ∧
      (Calculator.divide self a b).2 = (Calculator.divide other a b).2 ∧
      (Calculator.power self a b).2 = (Calculator.power other a b).2 ∧
      (Calculator.square_root self a).2 = (Calculator.square_root other a).2) :=
  ⟨⟨rfl, rfl, rfl, rfl, rfl, rfl⟩, ⟨rfl, rfl, rfl, rfl, rfl, rfl⟩⟩

/-- C9: at the domain boundary `square_root(0)` does not raise but
returns the float `0.0`, and the error branch of `square_root` is taken
only for strictly negative argument values. -/
theorem square_root_zero_boundary :
    (Calculator.square_root [] (.int 0)).2 = .ok (.float 0) ∧
    ∀ (self : Attrs) (n : PyVal),
      (Calculator.square_root self n).2 = .error .valueError →
        n.toReal < 0 := by
  constructor
  · have h0 : ¬ ((PyVal.int 0).toReal < 0) := by norm_num [PyVal.toReal]
    simp only [Calculator.square_root, mathSqrt]
    rw [if_neg h0]
    have : Real.sqrt (PyVal.int 0).toReal = 0 := by
      norm_num [PyVal.toReal]
    rw [Except.map, this]
  · intro self n h
    by_contra hn
    simp only [Calculator.square_root, mathSqrt] at h
    rw [if_neg hn] at h
    exact absurd h (by simp [Except.map])

/-- C10: `power` always returns a `float` value even on two `int`
arguments — in particular `power(2, 10)` is the float `1024.0` — while
`add`, `subtract` and `multiply` on two `int` arguments return `int`
values. -/
theorem power_returns_float_int_ops_preserve_int :
    (∀ (self : Attrs) (a b v : PyVal),
      (Calculator.power self a b).2 = .ok v → ∃ x : ℝ, v = .float x) ∧
    (Calculator.power [] (.int 2) (.int 10)).2 = .ok (.float 1024) ∧
    (∀ (self : Attrs) (m n : ℤ),
      (Calculator.add self (.int m) (.int n)).2 = .ok (.int (m + n)) ∧
      (Calculator.subtract self (.int m) (.int n)).2 = .ok (.int (m - n)) ∧
      (Calculator.multiply self (.int m) (.int n)).2 = .ok (.int (m * n))) := by
  refine ⟨?_, ?_, ?_⟩
  · intro self a b v h
    simp only [Calculator.power] at h
    cases hp : mathPow a.toReal b.toReal with
    | error e => rw [hp] at h; exact absurd h (by simp [Except.map])
    | ok x =>
        rw [hp] at h
        refine ⟨x, ?_⟩
        simpa [Except.map] using h.symm
  · have h1 : ¬ (((PyVal.int 2).toReal) = 0 ∧ ((PyVal.int 10).toReal) < 0) := by
      norm_num [PyVal.toReal]
    have h2 : ¬ (((PyVal.int 2).toReal) < 0 ∧
        ¬ isIntegral ((PyVal.int 10).toReal)) := by
      norm_num [PyVal.toReal]
    simp only [Calculator.power, mathPow]
    rw [if_neg h1, if_neg h2]
    have hv : ((PyVal.int 2).toReal) ^ ((PyVal.int 10).toReal) = 1024 := by
      have hb : (PyVal.int 2).toReal = (2 : ℝ) := by norm_num [PyVal.toReal]
      have he : (PyVal.int 10).toReal = (10 : ℝ) := by norm_num [PyVal.toReal]
      rw [hb, he, two_rpow_ten]
    rw [Except.map, hv]
  · intro self m n
    exact ⟨rfl, rfl, rfl⟩

/-- C1: the claim fails on the code.  For every wall-clock time, `main`
prints only `Hello, World!`: the attribute lookup `datetime.now` raises
`AttributeError` (the `datetime` module has no attribute `now`), so the
time and the farewell are never printed and the exit status is 1,
not 0. -/
theorem main_raises_attributeError (t : Time) :
    main t = (["Hello, World!"], .error .attributeError) ∧
      exitCode (main t).2 = 1 := by
  constructor <;> rfl

/-- C2: the claim fails on the code.  Every call to `get_current_time`
raises `AttributeError`: `import datetime` binds the module, which has
no attribute `now`, so no time string is ever returned. -/
theorem get_current_time_raises (t : Time) :
    get_current_time t = .error .attributeError := rfl

/-- C7: `greet(name)` prints exactly `Hello, {name}!` and
`farewell(name)` prints exactly `Goodbye, {name}!`; in particular
`greet("World")` prints `Hello, World!` and `farewell("Alice")` prints
`Goodbye, Alice!`. -/
theorem greet_farewell_output (name : String) :
    greet name = ["Hello, " ++ name ++ "!"] ∧
      farewell name = ["Goodbye, " ++ name ++ "!"] ∧
      greet "World" = ["Hello, World!"] ∧
      farewell "Alice" = ["Goodbye, Alice!"] :=
  ⟨rfl, rfl, rfl, rfl⟩

end CodeAgent
